import Mathlib

/-!
Verification of the Customer_Support_System data-ingestion pipeline
(src/data_ingestion/ingestion_pipeline.py, src/config/config_loader.py).

The Python code is shallowly embedded: pandas cell values become an
inductive CellValue (string or rational number), a pandas Series row
becomes an association list from column name to value, the DataFrame
becomes a column list plus a row list, raised exceptions become
Except.error carrying the data the exception message names, and external
collaborators (os environment, filesystem, pandas CSV reader, YAML config
file, AstraDB vector store client, embedding model) become explicit
function or Option parameters.  Console prints that carry the observable
result of a step are modelled as returned data (the printed diagnostic
line of transform_data, the event trace of run_pipeline).
-/

namespace CustomerSupportSystem

/-- A cell value of the tabular input: pandas cells are dynamically typed;
the four required columns hold strings (product_title, summary, review)
and a number (rating), modelled as a rational. -/
inductive CellValue where
  | str : String → CellValue
  | num : Rat → CellValue
deriving DecidableEq, Repr

/-- One tabular record, as pandas iterrows yields it: a mapping from
column name to cell value (association list, first binding wins). -/
structure Row where
  cells : List (String × CellValue)
deriving DecidableEq, Repr

/-- Lookup of a column in a row; pandas raises KeyError on a missing
column, modelled by none. -/
def lookupCell : List (String × CellValue) → String → Option CellValue
  | [], _ => none
  | (k, v) :: rest, c => if k = c then some v else lookupCell rest c

/-- row[c] in Python: Row.get r c is some v when column c is present. -/
def Row.get (r : Row) (c : String) : Option CellValue :=
  lookupCell r.cells c

/-- A pandas DataFrame as loaded by pd.read_csv: its column set and its
ordered rows. -/
structure DataFrame where
  columns : List String
  rows : List Row
deriving DecidableEq, Repr

/-- A LangChain Document: page_content plus a metadata mapping, the unit
persisted to the vector store. -/
structure Document where
  page_content : CellValue
  metadata : List (String × CellValue)
deriving DecidableEq, Repr

/-- The config.yaml content the pipeline reads
(config["astra_db"]["collection_name"]). -/
structure IngestionConfig where
  collection_name : String
deriving DecidableEq, Repr

/-- The four credentials _load_env_variables records on self after
validation. -/
structure Credentials where
  google_api_key : String
  db_api_endpoint : String
  db_application_token : String
  db_keyspace : String
deriving DecidableEq, Repr

/-- Errors raised by the pipeline.  Each constructor carries the data the
Python exception message names: missingEnv the missing_vars list
(EnvironmentError), sourceNotFound the csv_path (FileNotFoundError),
schemaError the column set the ValueError message prints, configError the
failure of load_config to open or parse config.yaml, keyError a missing
column during row access, storeError the message of an exception raised
by the AstraDB client call. -/
inductive PipelineError where
  | missingEnv (vars : List String)
  | sourceNotFound (path : String)
  | schemaError (cols : List String)
  | configError
  | keyError
  | storeError (msg : String)
deriving DecidableEq, Repr

/-- required_vars of _load_env_variables, in source order. -/
def required_vars : List String :=
  ["GOOGLE_API_KEY", "ASTRA_DB_API_ENDPOINT",
   "ASTRA_DB_APPLICATION_TOKEN", "ASTRA_DB_KEYSPACE"]

/-- _load_env_variables: compute missing_vars by filtering required_vars
on os.getenv returning None; raise EnvironmentError listing missing_vars
when nonempty, else record the four values on self.  The getD "" default
is unreachable: after the check every required variable is present. -/
def load_env_variables (env : String → Option String) :
    Except PipelineError Credentials :=
  let missing_vars := required_vars.filter (fun v => (env v).isNone)
  if missing_vars.isEmpty then
    Except.ok
      { google_api_key := (env "GOOGLE_API_KEY").getD ""
        db_api_endpoint := (env "ASTRA_DB_API_ENDPOINT").getD ""
        db_application_token := (env "ASTRA_DB_APPLICATION_TOKEN").getD ""
        db_keyspace := (env "ASTRA_DB_KEYSPACE").getD "" }
  else
    Except.error (PipelineError.missingEnv missing_vars)

/-- The fixed relative location os.path.join of cwd, data and
flipkart_product_review.csv. -/
def csv_path_of (cwd : String) : String :=
  cwd ++ "/data/flipkart_product_review.csv"

/-- _get_csv_path: resolve the path under the current working directory
and raise FileNotFoundError when os.path.exists is false. -/
def get_csv_path (cwd : String) (fileExists : String → Bool) :
    Except PipelineError String :=
  let csv_path := csv_path_of cwd
  if fileExists csv_path then Except.ok csv_path
  else Except.error (PipelineError.sourceNotFound csv_path)

/-- expected_columns of _load_csv (a Python set literal; the list models
it, membership checks are order-independent). -/
def expected_columns : List String :=
  ["product_title", "rating", "summary", "review"]

/-- expected_columns.issubset(set(df.columns)). -/
def has_expected_columns (df : DataFrame) : Bool :=
  expected_columns.all (fun c => df.columns.contains c)

/-- _load_csv on the DataFrame pd.read_csv produced: raise ValueError
when a required column is absent — the message prints expected_columns,
the full required set — else return the DataFrame. -/
def load_csv (df : DataFrame) : Except PipelineError DataFrame :=
  if has_expected_columns df then Except.ok df
  else Except.error (PipelineError.schemaError expected_columns)

/-- The product_entry dict built from one row in the first loop of
transform_data. -/
structure ProductEntry where
  product_name : CellValue
  product_rating : CellValue
  product_summary : CellValue
  product_review : CellValue
deriving DecidableEq, Repr

/-- One iteration of the first loop of transform_data: read the four
columns of the row (KeyError, i.e. none, when absent) and build the
product_entry dict. -/
def rowToEntry (r : Row) : Option ProductEntry :=
  match r.get "product_title", r.get "rating",
        r.get "summary", r.get "review" with
  | some t, some ra, some sm, some rv =>
      some { product_name := t, product_rating := ra,
             product_summary := sm, product_review := rv }
  | _, _, _, _ => none

/-- The first loop of transform_data: product_list.append(product_entry)
for each row, aborting with the KeyError (none) of the first bad row. -/
def build_product_list : List Row → Option (List ProductEntry)
  | [] => some []
  | r :: rest =>
    match rowToEntry r with
    | none => none
    | some e =>
      match build_product_list rest with
      | none => none
      | some es => some (e :: es)

/-- The second loop of transform_data: metadata from the three non-review
entry fields, page_content from product_review. -/
def entryToDoc (e : ProductEntry) : Document :=
  { page_content := e.product_review
    metadata :=
      [("product_name", e.product_name),
       ("product_rating", e.product_rating),
       ("product_summary", e.product_summary)] }

/-- transform_data, the document-producing core: both loops composed.
none models the KeyError a row missing a required column would raise. -/
def transform_data (rows : List Row) : Option (List Document) :=
  match build_product_list rows with
  | none => none
  | some product_list => some (product_list.map entryToDoc)

/-- transform_data with its console output: on success the method prints
exactly one diagnostic line, "Transformed {n} documents.".  The printed
lines are returned alongside the documents. -/
def transform_data_run (rows : List Row) :
    Option (List Document × List String) :=
  match transform_data rows with
  | none => none
  | some documents =>
      some (documents,
        ["Transformed " ++ toString documents.length ++ " documents."])

/-- rows.all of a decidable per-row validity: every required column
present.  This is what loading through _load_csv guarantees when the
DataFrame is rectangular. -/
def rows_valid (rows : List Row) : Bool :=
  rows.all (fun r =>
    (r.get "product_title").isSome && (r.get "rating").isSome &&
    (r.get "summary").isSome && (r.get "review").isSome)

/-- The object state __init__ leaves behind: credentials, csv_path,
product_data, config.  The model_loader field is an external capability
with no observable state and is not modelled. -/
structure DataIngestion where
  credentials : Credentials
  csv_path : String
  product_data : DataFrame
  config : IngestionConfig
deriving DecidableEq, Repr

/-- The ambient world __init__ reads: os.environ, os.getcwd,
os.path.exists, pd.read_csv, and the config.yaml content (none when
load_config fails to open or parse it). -/
structure PyEnv where
  vars : String → Option String
  cwd : String
  fileExists : String → Bool
  read_csv : String → DataFrame
  configFile : Option IngestionConfig

/-- __init__: load env variables, resolve the csv path, load the CSV,
load config.yaml — in source order, each step aborting the construction
with its exception. -/
def DataIngestion.init (e : PyEnv) : Except PipelineError DataIngestion := do
  let creds ← load_env_variables e.vars
  let csv_path ← get_csv_path e.cwd e.fileExists
  let product_data ← load_csv (e.read_csv csv_path)
  let config ← match e.configFile with
    | some c => Except.ok c
    | none => Except.error PipelineError.configError
  Except.ok { credentials := creds, csv_path := csv_path,
              product_data := product_data, config := config }

/-- The method self.transform_data(): reads self.product_data, returns
the documents, leaves the object state as it was (the method assigns no
field of self). -/
def DataIngestion.transform_data_step (s : DataIngestion) :
    Option (List Document) × DataIngestion :=
  (transform_data s.product_data.rows, s)

/-- store_in_vector_db: read collection_name from self.config, call the
external store client add_documents (its exceptions become storeError),
return inserted_ids; the object state is unchanged.  The printed count,
len(inserted_ids), is the length of the returned list. -/
def DataIngestion.store_in_vector_db
    (add_documents : String → List Document → Except String (List String))
    (documents : List Document) (s : DataIngestion) :
    Except PipelineError (List String) × DataIngestion :=
  let collection_name := s.config.collection_name
  match add_documents collection_name documents with
  | Except.error msg => (Except.error (PipelineError.storeError msg), s)
  | Except.ok inserted_ids => (Except.ok inserted_ids, s)

/-- What a run reports on success: the printed inserted count
(len(inserted_ids)) and the printed sample search results. -/
structure RunReport where
  inserted_count : Nat
  sample_results : List Document
deriving DecidableEq, Repr

/-- The fixed verification query of run_pipeline. -/
def sample_query : String := "Can you tell me the low budget headphone?"

/-- Externally observable pipeline actions, for ordering claims: the
transform completing (its print), a write batch submitted to the store,
the verification similarity search issued. -/
inductive Event where
  | transformed (n : Nat)
  | storeWrite (collection : String) (documents : List Document)
  | verifyQuery (q : String)
deriving DecidableEq, Repr

/-- run_pipeline: transform, store, then one similarity search — with no
exception handler anywhere, so an error of any step propagates and aborts the
run.  Returns the report (or the error), the event trace, and the final
object state. -/
def DataIngestion.run_pipeline
    (add_documents : String → List Document → Except String (List String))
    (similarity_search : String → Except String (List Document))
    (s : DataIngestion) :
    (Except PipelineError RunReport × List Event) × DataIngestion :=
  let (docsO, s1) := DataIngestion.transform_data_step s
  match docsO with
  | none => ((Except.error PipelineError.keyError, []), s1)
  | some documents =>
    let ev1 := [Event.transformed documents.length]
    let (storeRes, s2) :=
      DataIngestion.store_in_vector_db add_documents documents s1
    let ev2 := ev1 ++ [Event.storeWrite s1.config.collection_name documents]
    match storeRes with
    | Except.error err => ((Except.error err, ev2), s2)
    | Except.ok inserted_ids =>
      let ev3 := ev2 ++ [Event.verifyQuery sample_query]
      match similarity_search sample_query with
      | Except.error msg =>
          ((Except.error (PipelineError.storeError msg), ev3), s2)
      | Except.ok results =>
          ((Except.ok { inserted_count := inserted_ids.length,
                        sample_results := results }, ev3), s2)

/-- The __main__ block: construct DataIngestion, then run_pipeline.  A
construction error aborts before any pipeline step: the trace is empty. -/
def ingestion_main (e : PyEnv)
    (add_documents : String → List Document → Except String (List String))
    (similarity_search : String → Except String (List Document)) :
    Except PipelineError RunReport × List Event :=
  match DataIngestion.init e with
  | Except.error err => (Except.error err, [])
  | Except.ok s =>
      (DataIngestion.run_pipeline add_documents similarity_search s).1

/-! Concrete inputs used to instantiate the theorems. -/

/-- An environment with all four required variables set. -/
def env_all : String → Option String := fun v =>
  if v = "GOOGLE_API_KEY" then some "gk"
  else if v = "ASTRA_DB_API_ENDPOINT" then some "ep"
  else if v = "ASTRA_DB_APPLICATION_TOKEN" then some "tok"
  else if v = "ASTRA_DB_KEYSPACE" then some "ks"
  else none

/-- An environment missing ASTRA_DB_API_ENDPOINT and
ASTRA_DB_APPLICATION_TOKEN. -/
def env_missing_two : String → Option String := fun v =>
  if v = "GOOGLE_API_KEY" then some "gk"
  else if v = "ASTRA_DB_KEYSPACE" then some "ks"
  else none

/-- A row of the example scenario of the spec. -/
def sample_row : Row :=
  { cells :=
      [("product_title", CellValue.str "Headphone A"),
       ("rating", CellValue.num 4),
       ("summary", CellValue.str "Good bass"),
       ("review", CellValue.str "Great sound for the price")] }

/-- The same record with an additional column prepended. -/
def sample_row_extra : Row :=
  { cells :=
      [("product_id", CellValue.str "P1"),
       ("product_title", CellValue.str "Headphone A"),
       ("rating", CellValue.num 4),
       ("summary", CellValue.str "Good bass"),
       ("review", CellValue.str "Great sound for the price")] }

/-- A row whose review is the empty string. -/
def empty_review_row : Row :=
  { cells :=
      [("product_title", CellValue.str "Headphone B"),
       ("rating", CellValue.num 5),
       ("summary", CellValue.str "ok"),
       ("review", CellValue.str "")] }

/-- The Document transform_data produces from sample_row. -/
def sample_docs : List Document :=
  [{ page_content := CellValue.str "Great sound for the price",
     metadata :=
       [("product_name", CellValue.str "Headphone A"),
        ("product_rating", CellValue.num 4),
        ("product_summary", CellValue.str "Good bass")] }]

/-- A one-row DataFrame with exactly the required columns. -/
def sample_df : DataFrame :=
  { columns := expected_columns, rows := [sample_row] }

/-- A DataFrame whose column set misses only the review column. -/
def df_missing_review : DataFrame :=
  { columns := ["product_title", "rating", "summary"], rows := [] }

def sample_config : IngestionConfig := { collection_name := "flipkart_reviews" }

def sample_credentials : Credentials :=
  { google_api_key := "gk", db_api_endpoint := "ep",
    db_application_token := "tok", db_keyspace := "ks" }

/-- A constructed pipeline object over sample_df. -/
def sample_state : DataIngestion :=
  { credentials := sample_credentials,
    csv_path := csv_path_of "/app",
    product_data := sample_df,
    config := sample_config }

/-- A store whose add_documents call succeeds but returns no identifiers. -/
def store_ok_empty : String → List Document → Except String (List String) :=
  fun _ _ => Except.ok []

/-- A store returning exactly one identifier per submitted document. -/
def store_ok_one : String → List Document → Except String (List String) :=
  fun _ documents => Except.ok (documents.map (fun _ => "id0"))

/-- A similarity search that succeeds with an empty result list. -/
def search_ok : String → Except String (List Document) :=
  fun _ => Except.ok []

/-- A similarity search that raises. -/
def search_fail : String → Except String (List Document) :=
  fun _ => Except.error "boom"

/-- A world where every credential is set but the CSV file is absent. -/
def pyenv_no_file : PyEnv :=
  { vars := env_all, cwd := "/app", fileExists := fun _ => false,
    read_csv := fun _ => sample_df, configFile := some sample_config }

/-! Helper lemmas shared by the claim theorems. -/

/-- When some required variable is unset, _load_env_variables raises the
EnvironmentError carrying the computed missing_vars list. -/
theorem load_env_variables_error (env : String → Option String)
    (h : required_vars.filter (fun v => (env v).isNone) ≠ []) :
    load_env_variables env =
      Except.error (PipelineError.missingEnv
        (required_vars.filter (fun v => (env v).isNone))) := by
  have hb : (required_vars.filter (fun v => (env v).isNone)).isEmpty = false := by
    simp [List.isEmpty_iff, h]
  simp [load_env_variables, hb]

/-- When every required variable is set, _load_env_variables succeeds. -/
theorem load_env_variables_ok (env : String → Option String)
    (h : ∀ v ∈ required_vars, (env v).isSome) :
    ∃ c, load_env_variables env = Except.ok c := by
  have hf : required_vars.filter (fun v => (env v).isNone) = [] := by
    rw [List.filter_eq_nil_iff]
    intro v hv
    have := h v hv
    cases henv : env v <;> simp_all
  refine ⟨{ google_api_key := (env "GOOGLE_API_KEY").getD ""
            db_api_endpoint := (env "ASTRA_DB_API_ENDPOINT").getD ""
            db_application_token := (env "ASTRA_DB_APPLICATION_TOKEN").getD ""
            db_keyspace := (env "ASTRA_DB_KEYSPACE").getD "" }, ?_⟩
  simp [load_env_variables, hf]

/-- A successful rowToEntry reads exactly the four required columns. -/
theorem rowToEntry_get {r : Row} {e : ProductEntry}
    (h : rowToEntry r = some e) :
    r.get "product_title" = some e.product_name ∧
    r.get "rating" = some e.product_rating ∧
    r.get "summary" = some e.product_summary ∧
    r.get "review" = some e.product_review := by
  unfold rowToEntry at h
  cases h1 : Row.get r "product_title" <;> rw [h1] at h <;>
    cases h2 : Row.get r "rating" <;> rw [h2] at h <;>
      cases h3 : Row.get r "summary" <;> rw [h3] at h <;>
        cases h4 : Row.get r "review" <;> rw [h4] at h <;>
          simp at h
  subst h
  exact ⟨rfl, rfl, rfl, rfl⟩

/-- The first loop of transform_data is one-to-one and order-preserving:
the entry list has one entry per row, at the same index. -/
theorem build_product_list_spec :
    ∀ {rows : List Row} {es : List ProductEntry},
    build_product_list rows = some es →
    es.length = rows.length ∧
    ∀ i (hi : i < rows.length) (he : i < es.length),
      rowToEntry rows[i] = some es[i] := by
  intro rows
  induction rows with
  | nil =>
    intro es h
    unfold build_product_list at h
    injection h with h
    subst h
    exact ⟨rfl, fun i hi _ => absurd hi (by simp)⟩
  | cons r rest ih =>
    intro es h
    unfold build_product_list at h
    cases hr : rowToEntry r with
    | none => rw [hr] at h; exact absurd h (by simp)
    | some e =>
      rw [hr] at h
      cases hb : build_product_list rest with
      | none => rw [hb] at h; exact absurd h (by simp)
      | some es0 =>
        rw [hb] at h
        injection h with h
        subst h
        obtain ⟨hlen, hpt⟩ := ih hb
        refine ⟨by simp [hlen], ?_⟩
        intro i hi he
        cases i with
        | zero => simpa using hr
        | succ n =>
          have hi2 : n < rest.length := by simpa using hi
          have he2 : n < es0.length := by simpa using he
          simpa using hpt n hi2 he2

/-- On valid rows (every required column present in every row) the first
loop of transform_data raises no KeyError. -/
theorem build_product_list_total :
    ∀ {rows : List Row}, rows_valid rows = true →
    ∃ es, build_product_list rows = some es := by
  intro rows
  induction rows with
  | nil => exact fun _ => ⟨[], rfl⟩
  | cons r rest ih =>
    intro h
    simp only [rows_valid, List.all_cons, Bool.and_eq_true] at h
    obtain ⟨⟨⟨⟨h1, h2⟩, h3⟩, h4⟩, hrest⟩ := h
    obtain ⟨t, ht⟩ := Option.isSome_iff_exists.mp h1
    obtain ⟨ra, hra⟩ := Option.isSome_iff_exists.mp h2
    obtain ⟨sm, hsm⟩ := Option.isSome_iff_exists.mp h3
    obtain ⟨rv, hrv⟩ := Option.isSome_iff_exists.mp h4
    obtain ⟨es, hes⟩ := ih hrest
    have hre : rowToEntry r = some
        { product_name := t, product_rating := ra,
          product_summary := sm, product_review := rv } := by
      unfold rowToEntry
      rw [ht, hra, hsm, hrv]
    refine ⟨{ product_name := t, product_rating := ra,
              product_summary := sm, product_review := rv } :: es, ?_⟩
    unfold build_product_list
    rw [hre, hes]

/-- transform_data succeeds exactly when the first loop does, and then
maps entryToDoc over the entry list. -/
theorem transform_data_eq_some {rows : List Row} {documents : List Document}
    (h : transform_data rows = some documents) :
    ∃ es, build_product_list rows = some es ∧
      documents = es.map entryToDoc := by
  unfold transform_data at h
  cases hb : build_product_list rows with
  | none => rw [hb] at h; exact absurd h (by simp)
  | some es =>
    rw [hb] at h
    injection h with h
    exact ⟨es, rfl, h.symm⟩

/-! Claim theorems. -/

/-- C1: for every valid row sequence, transform_data produces a Document
sequence of the same length, with the i-th page_content equal to the i-th
review field and the i-th metadata exactly the mapping of product_name to
product_title, product_rating to rating and product_summary to summary;
no row is dropped or merged (an empty review string included, since
validity only requires the columns to be present). -/
theorem c1_transform_pointwise (rows : List Row)
    (hv : rows_valid rows = true) :
    ∃ documents, transform_data rows = some documents ∧
      documents.length = rows.length ∧
      ∀ i (hi : i < rows.length) (hd : i < documents.length),
        Row.get rows[i] "review" = some documents[i].page_content ∧
        ∃ t ra sm,
          Row.get rows[i] "product_title" = some t ∧
          Row.get rows[i] "rating" = some ra ∧
          Row.get rows[i] "summary" = some sm ∧
          documents[i].metadata =
            [("product_name", t), ("product_rating", ra),
             ("product_summary", sm)] := by
  obtain ⟨es, hes⟩ := build_product_list_total hv
  obtain ⟨hlen, hpt⟩ := build_product_list_spec hes
  refine ⟨es.map entryToDoc, ?_, by simp [hlen], ?_⟩
  · unfold transform_data
    rw [hes]
  · intro i hi hd
    have he : i < es.length := by simpa using hd
    obtain ⟨h1, h2, h3, h4⟩ := rowToEntry_get (hpt i hi he)
    simp only [List.getElem_map, entryToDoc]
    exact ⟨h4, es[i].product_name, es[i].product_rating,
           es[i].product_summary, h1, h2, h3, rfl⟩

/-- C1 witness: a concrete two-row sequence, the second with an empty
review, is valid and transforms successfully. -/
theorem c1_witness :
    rows_valid [sample_row, empty_review_row] = true ∧
    (transform_data [sample_row, empty_review_row]).isSome = true := by
  refine ⟨by decide, ?_⟩
  obtain ⟨documents, hd, -, -⟩ :=
    c1_transform_pointwise [sample_row, empty_review_row] (by decide)
  rw [hd]
  rfl

/-- C3 counterexample: a source missing only the review column fails with
the error naming the full required set, not the missing subset. -/
theorem c3_counterexample :
    load_csv df_missing_review =
      Except.error (PipelineError.schemaError
        ["product_title", "rating", "summary", "review"]) ∧
    (["product_title", "rating", "summary", "review"] : List String) ≠
      ["review"] := by
  exact ⟨rfl, by decide⟩

/-- C3 amended: loading a source whose column set omits any required
column fails with the schema error, whose message names the full
expected_columns set (the same set whichever subset is missing). -/
theorem c3_schema_error (df : DataFrame)
    (h : has_expected_columns df = false) :
    load_csv df =
      Except.error (PipelineError.schemaError expected_columns) := by
  simp [load_csv, h]

/-- C3 witness: the amended statement evaluated at the DataFrame missing
only the review column. -/
theorem c3_witness :
    load_csv df_missing_review =
      Except.error (PipelineError.schemaError expected_columns) :=
  c3_schema_error df_missing_review (by decide)

/-- C5: when any required credentials are absent, initialization fails
with exactly one EnvironmentError carrying a list that holds a variable
name precisely when that variable is required and unset — all missing
names together. -/
theorem c5_credential_error (env : String → Option String)
    (missing : List String)
    (hm : missing = required_vars.filter (fun v => (env v).isNone))
    (hne : missing ≠ []) :
    load_env_variables env =
      Except.error (PipelineError.missingEnv missing) ∧
    ∀ v, v ∈ missing ↔ (v ∈ required_vars ∧ env v = none) := by
  subst hm
  constructor
  · exact load_env_variables_error env hne
  · intro v
    simp [List.mem_filter, Option.isNone_iff_eq_none]

/-- C5 witness: with exactly the endpoint and token unset, the one error
lists exactly those two names. -/
theorem c5_witness :
    load_env_variables env_missing_two =
      Except.error (PipelineError.missingEnv
        ["ASTRA_DB_API_ENDPOINT", "ASTRA_DB_APPLICATION_TOKEN"]) :=
  (c5_credential_error env_missing_two
    ["ASTRA_DB_API_ENDPOINT", "ASTRA_DB_APPLICATION_TOKEN"]
    (by decide) (by decide)).1

/-- C7: every produced Document has metadata keys exactly product_name,
product_rating, product_summary; its page_content is the review field of
its source row; and whenever the review value differs from the three
other fields of that row, it does not occur among the metadata values. -/
theorem c7_metadata_invariant (rows : List Row) (documents : List Document)
    (h : transform_data rows = some documents) :
    ∀ i (hd : i < documents.length) (hi : i < rows.length),
      documents[i].metadata.map Prod.fst =
        ["product_name", "product_rating", "product_summary"] ∧
      Row.get rows[i] "review" = some documents[i].page_content ∧
      ((∀ c ∈ (["product_title", "rating", "summary"] : List String),
          Row.get rows[i] c ≠ some documents[i].page_content) →
        documents[i].page_content ∉ documents[i].metadata.map Prod.snd) := by
  obtain ⟨es, hes, hdm⟩ := transform_data_eq_some h
  subst hdm
  obtain ⟨hlen, hpt⟩ := build_product_list_spec hes
  intro i hd hi
  have he : i < es.length := by simpa using hd
  obtain ⟨h1, h2, h3, h4⟩ := rowToEntry_get (hpt i hi he)
  simp only [List.getElem_map, entryToDoc]
  refine ⟨rfl, h4, ?_⟩
  intro hne hmem
  simp only [List.map_cons, List.map_nil, List.mem_cons,
    List.not_mem_nil, or_false] at hmem
  rcases hmem with hm | hm | hm
  · rw [← hm] at h1
    exact hne "product_title" (by simp) h1
  · rw [← hm] at h2
    exact hne "rating" (by simp) h2
  · rw [← hm] at h3
    exact hne "summary" (by simp) h3

/-- C7 witness: the invariant evaluated at the sample row, at index 0. -/
theorem c7_witness :
    sample_docs[0].metadata.map Prod.fst =
      ["product_name", "product_rating", "product_summary"] ∧
    Row.get sample_row "review" = some sample_docs[0].page_content := by
  obtain ⟨hk, hr, -⟩ :=
    c7_metadata_invariant [sample_row] sample_docs rfl 0
      (by decide) (by decide)
  exact ⟨hk, hr⟩

/-- C8: two row sequences that agree index-for-index on the four required
columns transform to the same Document sequence; other columns have no
effect. -/
theorem c8_extra_columns_ignored (rows1 rows2 : List Row)
    (h : List.Forall₂
      (fun r1 r2 => ∀ c ∈ expected_columns, Row.get r1 c = Row.get r2 c)
      rows1 rows2) :
    transform_data rows1 = transform_data rows2 := by
  have hb : build_product_list rows1 = build_product_list rows2 := by
    induction h with
    | nil => rfl
    | cons h1 h2 ih =>
      rename_i a b l1 l2
      have he : rowToEntry a = rowToEntry b := by
        unfold rowToEntry
        rw [h1 "product_title" (by simp [expected_columns]),
            h1 "rating" (by simp [expected_columns]),
            h1 "summary" (by simp [expected_columns]),
            h1 "review" (by simp [expected_columns])]
      unfold build_product_list
      rw [he, ih]
  unfold transform_data
  rw [hb]

/-- C8 witness: adding a product_id column to the sample row leaves the
transform output unchanged. -/
theorem c8_witness :
    transform_data [sample_row] = transform_data [sample_row_extra] :=
  c8_extra_columns_ignored [sample_row] [sample_row_extra]
    (List.Forall₂.cons (by decide) List.Forall₂.nil)

/-- C9 counterexample: transform_data is not free of I/O — on the sample
row it writes one line to standard output. -/
theorem c9_counterexample :
    transform_data_run [sample_row] =
      some (sample_docs, ["Transformed 1 documents."]) ∧
    (["Transformed 1 documents."] : List String) ≠ [] := by
  exact ⟨rfl, by decide⟩

/-- C9 amended: transform_data is deterministic — equal inputs give equal
results — and its only side effect is printing the single diagnostic line
naming the document count. -/
theorem c9_deterministic (rows : List Row) (documents : List Document)
    (out : List String)
    (h : transform_data_run rows = some (documents, out)) :
    transform_data_run rows = transform_data_run rows ∧
    transform_data rows = some documents ∧
    out = ["Transformed " ++ toString documents.length ++ " documents."] := by
  unfold transform_data_run at h
  cases ht : transform_data rows with
  | none => rw [ht] at h; exact absurd h (by simp)
  | some ds =>
    rw [ht] at h
    simp only [Option.some.injEq, Prod.mk.injEq] at h
    obtain ⟨h1, h2⟩ := h
    subst h1
    subst h2
    exact ⟨rfl, rfl, rfl⟩

/-- C9 witness: the amended statement evaluated on the sample row. -/
theorem c9_witness :
    transform_data_run [sample_row] = transform_data_run [sample_row] ∧
    transform_data [sample_row] = some sample_docs ∧
    (["Transformed 1 documents."] : List String) =
      ["Transformed " ++ toString sample_docs.length ++ " documents."] :=
  c9_deterministic [sample_row] sample_docs
    ["Transformed 1 documents."] rfl

/-- C2 counterexample: over one valid row, a store call that succeeds but
returns zero identifiers makes the run succeed reporting inserted_count 0
— no ConsistencyError exists and success is still reported despite the
count mismatch with the single submitted document. -/
theorem c2_counterexample :
    (DataIngestion.run_pipeline store_ok_empty search_ok sample_state).1.1 =
      Except.ok { inserted_count := 0, sample_results := [] } ∧
    sample_state.product_data.rows.length = 1 ∧ (0 : Nat) ≠ 1 := by
  exact ⟨rfl, rfl, by decide⟩

/-- C2 amended: a run whose store call succeeds reports inserted_count
equal to the number of identifiers the store returned (hence equal to N
exactly when the store returns one identifier per document); the pipeline
performs no consistency check, so a mismatched count neither raises an
error nor prevents the success report. -/
theorem c2_inserted_count
    (add_documents : String → List Document → Except String (List String))
    (similarity_search : String → Except String (List Document))
    (s : DataIngestion) (documents : List Document)
    (ids : List String) (results : List Document)
    (ht : transform_data s.product_data.rows = some documents)
    (hs : add_documents s.config.collection_name documents = Except.ok ids)
    (hq : similarity_search sample_query = Except.ok results) :
    (DataIngestion.run_pipeline add_documents similarity_search s).1.1 =
      Except.ok { inserted_count := ids.length, sample_results := results } := by
  unfold DataIngestion.run_pipeline DataIngestion.transform_data_step
    DataIngestion.store_in_vector_db
  rw [ht]
  simp [hs, hq]

/-- C2 witness: the amended statement evaluated at the sample state with
a store returning no identifiers. -/
theorem c2_witness :
    (DataIngestion.run_pipeline store_ok_empty search_ok sample_state).1.1 =
      Except.ok { inserted_count := 0, sample_results := [] } :=
  c2_inserted_count store_ok_empty search_ok sample_state
    sample_docs [] [] rfl rfl rfl

/-- C4 counterexample: with a store write that succeeds (one identifier
per document) and a verification query that raises, the run aborts with
the propagated store error instead of completing with a success report. -/
theorem c4_counterexample :
    (DataIngestion.run_pipeline store_ok_one search_fail sample_state).1.1 =
      Except.error (PipelineError.storeError "boom") := by
  exact rfl

/-- C4 amended: when the store write succeeds but the verification
similarity query fails, the failure propagates and the run fails — no
warning-only path exists — while the store write itself stays submitted
(its event remains in the trace; nothing is rolled back). -/
theorem c4_verification_error_fatal
    (add_documents : String → List Document → Except String (List String))
    (similarity_search : String → Except String (List Document))
    (s : DataIngestion) (documents : List Document)
    (ids : List String) (msg : String)
    (ht : transform_data s.product_data.rows = some documents)
    (hs : add_documents s.config.collection_name documents = Except.ok ids)
    (hq : similarity_search sample_query = Except.error msg) :
    (DataIngestion.run_pipeline add_documents similarity_search s).1.1 =
      Except.error (PipelineError.storeError msg) ∧
    Event.storeWrite s.config.collection_name documents ∈
      (DataIngestion.run_pipeline add_documents similarity_search s).1.2 := by
  unfold DataIngestion.run_pipeline DataIngestion.transform_data_step
    DataIngestion.store_in_vector_db
  rw [ht]
  simp [hs, hq]

/-- C4 witness: the amended statement evaluated at the sample state. -/
theorem c4_witness :
    (DataIngestion.run_pipeline store_ok_one search_fail sample_state).1.1 =
      Except.error (PipelineError.storeError "boom") ∧
    Event.storeWrite "flipkart_reviews" sample_docs ∈
      (DataIngestion.run_pipeline store_ok_one search_fail sample_state).1.2 :=
  c4_verification_error_fatal store_ok_one search_fail sample_state
    sample_docs ["id0"] "boom" rfl rfl rfl

/-- C6: a construction error — credential, source-not-found, schema or
config — aborts the whole program before any pipeline step, with an empty
event trace (no transform, no store write, no verification query); in
particular, with all credentials set but the CSV file absent, the program
fails with the source-not-found error carrying the resolved path, and
nothing else happens. -/
theorem c6_fail_fast (e : PyEnv)
    (add_documents : String → List Document → Except String (List String))
    (similarity_search : String → Except String (List Document)) :
    (∀ err, DataIngestion.init e = Except.error err →
      ingestion_main e add_documents similarity_search =
        (Except.error err, [])) ∧
    ((∀ v ∈ required_vars, (e.vars v).isSome) →
      e.fileExists (csv_path_of e.cwd) = false →
      ingestion_main e add_documents similarity_search =
        (Except.error (PipelineError.sourceNotFound (csv_path_of e.cwd)),
         [])) := by
  constructor
  · intro err h
    unfold ingestion_main
    rw [h]
  · intro hv hf
    obtain ⟨c, hc⟩ := load_env_variables_ok e.vars hv
    have hinit : DataIngestion.init e =
        Except.error (PipelineError.sourceNotFound (csv_path_of e.cwd)) := by
      unfold DataIngestion.init
      rw [hc]
      simp [Bind.bind, Except.bind, get_csv_path, hf]
    unfold ingestion_main
    rw [hinit]

/-- C6 witness: in a world with all credentials set and no CSV file, the
program returns the source-not-found error and an empty trace. -/
theorem c6_witness :
    ingestion_main pyenv_no_file store_ok_empty search_ok =
      (Except.error (PipelineError.sourceNotFound (csv_path_of "/app")),
       []) :=
  (c6_fail_fast pyenv_no_file store_ok_empty search_ok).2
    (by decide) rfl

/-- C10: the pipeline methods leave the loaded rows untouched — after the
transform step and after a full run (whatever the store and search
behaviors do), the product_data field of the object equals what the
loader produced. -/
theorem c10_rows_unchanged (s : DataIngestion)
    (add_documents : String → List Document → Except String (List String))
    (similarity_search : String → Except String (List Document)) :
    (DataIngestion.transform_data_step s).2.product_data = s.product_data ∧
    DataIngestion.product_data
      (DataIngestion.run_pipeline add_documents similarity_search s).2 =
      s.product_data := by
  refine ⟨rfl, ?_⟩
  unfold DataIngestion.run_pipeline DataIngestion.transform_data_step
    DataIngestion.store_in_vector_db
  cases ht : transform_data s.product_data.rows with
  | none => simp [ht]
  | some documents =>
    cases hs : add_documents s.config.collection_name documents with
    | error msg => simp [ht, hs]
    | ok ids =>
      cases hq : similarity_search sample_query with
      | error m => simp [ht, hs, hq]
      | ok results => simp [ht, hs, hq]

end CustomerSupportSystem
